import Mathlib

/-!
Shallow embedding of the MapSync frontend (trip-creation modal and auth
context).  Pure functions are translated directly; React state updates are
modelled as explicit state-passing; asynchronous external calls (trip
creation, HTTP fetch, identity provider) are parameters supplying their
outcome, so theorems quantify over every possible outcome.
-/

namespace MapSync

/-- Model of JavaScript String.prototype.trim on the character list:
drop whitespace from the front, then from the back. -/
def trimChars (l : List Char) : List Char :=
  (l.dropWhile Char.isWhitespace).rdropWhile Char.isWhitespace

/-- Model of JavaScript String.prototype.trim. -/
def jsTrim (s : String) : String :=
  String.mk (trimChars s.data)

/-- Model of JavaScript Array.prototype.filter with the index argument,
as used in handleRemoveStop: the counter n is the index of the head. -/
def jsFilterWithIndex (p : Nat → α → Bool) : List α → Nat → List α
  | [], _ => []
  | x :: xs, n =>
    if p n x then x :: jsFilterWithIndex p xs (n + 1)
    else jsFilterWithIndex p xs (n + 1)

/-- Model of JavaScript Array.prototype.map with the index argument,
as used for stopsData in TripModal.tsx handleSubmit. -/
def jsMapWithIndex (f : Nat → α → β) : List α → Nat → List β
  | [], _ => []
  | x :: xs, n => f n x :: jsMapWithIndex f xs (n + 1)

/-- Geographic coordinate; the source keeps lat and lng as JS numbers, the
logic never does arithmetic on them, so exact rationals model them. -/
structure Coord where
  lat : Rat
  lng : Rat
deriving DecidableEq, Repr

/-- User interface of AuthContext.tsx. -/
structure User where
  uid : String
  displayName : Option String
  email : Option String
  photoURL : Option String
deriving DecidableEq, Repr

/-- PlaceSuggestion interface of TripModal.tsx. -/
structure PlaceSuggestion where
  description : String
  place_id : String
deriving DecidableEq, Repr

/-- A named place with a location, as in the origin and destination
fields of the trip payload. -/
structure Place where
  name : String
  location : Coord
deriving DecidableEq, Repr

/-- One element of stopsData in TripModal.tsx handleSubmit. -/
structure StopData where
  id : String
  name : String
  location : Coord
deriving DecidableEq, Repr

/-- The tripData payload of TripModal.tsx handleSubmit (variant B). -/
structure TripData where
  name : String
  origin : Place
  destination : Place
  stops : List StopData
  participants : List String
  createdBy : String
deriving DecidableEq, Repr

/-- The tripData payload of the unnamed TripModal variant (part_000,
variant A): stops carry no id, and there is no participants field. -/
structure TripDataA where
  name : String
  origin : Place
  destination : Place
  stops : List Place
  createdBy : String
deriving DecidableEq, Repr

/-- The useState fields of TripModal.tsx. -/
structure FormState where
  tripName : String
  destination : String
  stops : List String
  newStop : String
  isLoading : Bool
  error : String
  suggestions : List PlaceSuggestion
  currentLocation : Option Coord
deriving DecidableEq, Repr

/-- The useState fields of the part_000 variant: the same fields plus
the shareable-link view state. -/
structure FormStateA extends FormState where
  shareableLink : String
  showShareView : Bool
deriving DecidableEq, Repr

/-- JS string-or: a || b on strings is b exactly when a is empty (falsy). -/
def jsStringOr (a b : String) : String :=
  if a = "" then b else a

/-- Model of the expression currentUser?.uid || fallback. -/
def sessionUid (currentUser : Option User) (fallback : String) : String :=
  match currentUser with
  | some u => jsStringOr u.uid fallback
  | none => fallback

/-- getPlaceSuggestions of TripModal.tsx (both variants are identical):
returns the new suggestions list for the given input. -/
def getPlaceSuggestions (input : String) : List PlaceSuggestion :=
  if jsTrim input = "" then []
  else
    [ { description := input ++ ", New York, USA", place_id := "1" },
      { description := input ++ ", California, USA", place_id := "2" },
      { description := input ++ ", Texas, USA", place_id := "3" } ]

/-- handleAddStop of TripModal.tsx (both variants are identical):
if newStop.trim() is truthy (non-empty), append the trimmed text and
clear the input; otherwise do nothing. -/
def handleAddStop (st : FormState) : FormState :=
  if jsTrim st.newStop ≠ "" then
    { st with stops := st.stops ++ [jsTrim st.newStop], newStop := "" }
  else st

/-- handleRemoveStop of TripModal.tsx (both variants are identical):
stops.filter((_, i) => i !== index).  The index is an Int since JS
numbers can be negative. -/
def handleRemoveStop (st : FormState) (index : Int) : FormState :=
  { st with
    stops := jsFilterWithIndex (fun i _ => decide ((i : Int) ≠ index)) st.stops 0 }

/-- The validation error message of handleSubmit. -/
def validationError : String :=
  "Please fill in all required fields and ensure location services are enabled"

/-- The generic failure message of handleSubmit. -/
def genericFailure : String := "Failed to create trip. Please try again."

/-- The anonymous fallback id of TripModal.tsx handleSubmit. -/
def anonFallback : String := "user123"

/-- Observable outcome of TripModal.tsx handleSubmit: the final form
state, the creation requests issued, whether onClose ran, and the
navigation target if any. -/
structure SubmitOutcome where
  state : FormState
  requests : List TripData
  closed : Bool
  navigatedTo : Option String
deriving DecidableEq, Repr

/-- handleSubmit of TripModal.tsx (variant B).  The JS guard is
(!tripName || !destination || !currentLocation); here the currentLocation
test is matched first, which yields the same result in every case, since
all three failures produce the identical validation-error outcome.
mockCoordinates abstracts the Math.random() draw of the source, and
createTrip abstracts the awaited external call (ok carries the tripId,
error a thrown exception). -/
def handleSubmit (st : FormState) (currentUser : Option User)
    (mockCoordinates : String → Coord)
    (createTrip : TripData → Except String String) : SubmitOutcome :=
  match st.currentLocation with
  | none =>
    { state := { st with error := validationError },
      requests := [], closed := false, navigatedTo := none }
  | some loc =>
    if st.tripName = "" ∨ st.destination = "" then
      { state := { st with error := validationError },
        requests := [], closed := false, navigatedTo := none }
    else
      let stopsData := jsMapWithIndex
        (fun index stop =>
          { id := "stop" ++ toString index, name := stop,
            location := mockCoordinates stop : StopData }) st.stops 0
      let tripData : TripData :=
        { name := st.tripName,
          origin := { name := "Current Location", location := loc },
          destination :=
            { name := st.destination, location := mockCoordinates st.destination },
          stops := stopsData,
          participants := [sessionUid currentUser anonFallback],
          createdBy := sessionUid currentUser anonFallback }
      match createTrip tripData with
      | Except.ok tripId =>
        { state := { st with isLoading := false, error := "" },
          requests := [tripData], closed := true,
          navigatedTo := some ("/trip/" ++ tripId) }
      | Except.error _ =>
        { state := { st with isLoading := false, error := genericFailure },
          requests := [tripData], closed := false, navigatedTo := none }

instance instDecEqExcept [DecidableEq ε] [DecidableEq α] : DecidableEq (Except ε α) :=
  fun x y =>
    match x, y with
    | Except.ok a, Except.ok b =>
      if h : a = b then isTrue (by rw [h])
      else isFalse (fun hc => h (by injection hc))
    | Except.error a, Except.error b =>
      if h : a = b then isTrue (by rw [h])
      else isFalse (fun hc => h (by injection hc))
    | Except.ok _, Except.error _ => isFalse (fun hc => Except.noConfusion hc)
    | Except.error _, Except.ok _ => isFalse (fun hc => Except.noConfusion hc)

/-- Outcome of the awaited fetch in the part_000 variant: a thrown
network error, or a response with its ok flag and the result of parsing
the shareLink field out of response.json() (error models a parse throw). -/
inductive FetchOutcome where
  | networkError
  | response (ok : Bool) (shareLinkJson : Except Unit String)
deriving DecidableEq, Repr

/-- Observable outcome of the part_000 handleSubmit: the final form state
and the POST requests issued to the /newtrip endpoint. -/
structure SubmitOutcomeA where
  state : FormStateA
  requests : List TripDataA
deriving DecidableEq, Repr

/-- handleSubmit of the part_000 variant (variant A): destination and
stop coordinates are zero placeholders to be set by the backend, the
payload is POSTed, a non-ok response throws, and on success the parsed
shareLink is stored and the share view is shown.  The JS guard is
restructured as in handleSubmit, with the same result in every case. -/
def handleSubmitA (st : FormStateA) (currentUser : Option User)
    (fetch : TripDataA → FetchOutcome) : SubmitOutcomeA :=
  match st.currentLocation with
  | none =>
    { state := { st with error := validationError }, requests := [] }
  | some loc =>
    if st.tripName = "" ∨ st.destination = "" then
      { state := { st with error := validationError }, requests := [] }
    else
      let tripData : TripDataA :=
        { name := st.tripName,
          origin := { name := "Current Location", location := loc },
          destination := { name := st.destination, location := { lat := 0, lng := 0 } },
          stops := st.stops.map
            (fun stop => ({ name := stop, location := { lat := 0, lng := 0 } } : Place)),
          createdBy := sessionUid currentUser "" }
      match fetch tripData with
      | FetchOutcome.networkError =>
        { state := { st with isLoading := false, error := genericFailure },
          requests := [tripData] }
      | FetchOutcome.response ok shareLinkJson =>
        if ok then
          match shareLinkJson with
          | Except.ok shareLink =>
            let st1 := { st with isLoading := false, error := "" }
            { state := { st1 with shareableLink := shareLink, showShareView := true },
              requests := [tripData] }
          | Except.error _ =>
            { state := { st with isLoading := false, error := genericFailure },
              requests := [tripData] }
        else
          { state := { st with isLoading := false, error := genericFailure },
            requests := [tripData] }

/-- The state owned by AuthContext.tsx together with the browser
localStorage it touches, modelled as an association list. -/
structure AuthState where
  currentUser : Option User
  localStorage : List (String × String)
deriving DecidableEq, Repr

/-- Model of localStorage.removeItem. -/
def removeItem (store : List (String × String)) (key : String) :
    List (String × String) :=
  store.filter (fun kv => decide (kv.1 ≠ key))

/-- Model of localStorage.getItem. -/
def getItem (store : List (String × String)) (key : String) : Option String :=
  (store.find? (fun kv => decide (kv.1 = key))).map Prod.snd

/-- login of AuthContext.tsx: the signInResult parameter is the awaited
signInWithPopup call (ok carries the provider user, error a throw).  On
success the user snapshot is stored; on a throw the error is logged and
re-thrown, so the state is returned unchanged with the error. -/
def login (st : AuthState) (signInResult : Except String User) :
    AuthState × Except String Unit :=
  match signInResult with
  | Except.ok user =>
    let u : User :=
      { uid := user.uid, displayName := user.displayName,
        email := user.email, photoURL := user.photoURL }
    ({ st with currentUser := some u }, Except.ok ())
  | Except.error e => (st, Except.error e)

/-- logout of AuthContext.tsx: the signOutResult parameter is the awaited
signOut call.  On success the user snapshot is cleared and the cached
mirror is removed from localStorage; on a throw the error is re-thrown
and the state is unchanged. -/
def logout (st : AuthState) (signOutResult : Except String Unit) :
    AuthState × Except String Unit :=
  match signOutResult with
  | Except.ok _ =>
    let st1 := { st with currentUser := none }
    ({ st1 with localStorage := removeItem st.localStorage "user" }, Except.ok ())
  | Except.error e => (st, Except.error e)

/-! ### Helper lemmas about the JS array and string models -/

theorem jsFilterWithIndex_keep {α : Type} (i : Int) (xs : List α) :
    ∀ n : Nat, (∀ k : Nat, n ≤ k → k < n + xs.length → (k : Int) ≠ i) →
    jsFilterWithIndex (fun k _ => decide ((k : Int) ≠ i)) xs n = xs := by
  induction xs with
  | nil => intro n _; rfl
  | cons x xs ih =>
    intro n h
    have hn : (n : Int) ≠ i :=
      h n le_rfl (by simp only [List.length_cons]; omega)
    simp only [jsFilterWithIndex]
    rw [if_pos (by simp [hn])]
    exact congrArg (x :: ·) (ih (n + 1) (fun k hk1 hk2 => h k (by omega)
      (by simp only [List.length_cons] at hk2 ⊢; omega)))

theorem jsFilterWithIndex_erase {α : Type} (i : Int) (xs : List α) :
    ∀ d n : Nat, i = (n : Int) + (d : Int) → d < xs.length →
    jsFilterWithIndex (fun k _ => decide ((k : Int) ≠ i)) xs n = xs.eraseIdx d := by
  induction xs with
  | nil => intro d n _ hd; simp at hd
  | cons x xs ih =>
    intro d n hi hd
    cases d with
    | zero =>
      have hn : ¬((n : Int) ≠ i) := by omega
      simp only [jsFilterWithIndex]
      rw [if_neg (by simp [hn]), List.eraseIdx_cons_zero]
      exact jsFilterWithIndex_keep i xs (n + 1) (fun k hk1 _ => by omega)
    | succ d =>
      have hn : (n : Int) ≠ i := by omega
      simp only [jsFilterWithIndex]
      rw [if_pos (by simp [hn]), List.eraseIdx_cons_succ]
      exact congrArg (x :: ·) (ih d (n + 1) (by push_cast; omega)
        (by simp only [List.length_cons] at hd; omega))

theorem mem_jsFilterWithIndex {α : Type} (p : Nat → α → Bool) (x : α) :
    ∀ (xs : List α) (n : Nat), x ∈ jsFilterWithIndex p xs n → x ∈ xs := by
  intro xs
  induction xs with
  | nil => intro n h; exact absurd h (by simp [jsFilterWithIndex])
  | cons y ys ih =>
    intro n h
    by_cases hp : p n y
    · simp only [jsFilterWithIndex, hp, if_true, List.mem_cons] at h
      rcases h with h | h
      · exact List.mem_cons.mpr (Or.inl h)
      · exact List.mem_cons.mpr (Or.inr (ih (n + 1) h))
    · simp only [jsFilterWithIndex, hp, if_false] at h
      exact List.mem_cons.mpr (Or.inr (ih (n + 1) h))

theorem dropWhile_head_false {p : Char → Bool} {c : Char} {cs : List Char} :
    ∀ {l : List Char}, l.dropWhile p = c :: cs → p c = false := by
  intro l
  induction l with
  | nil => intro h; simp [List.dropWhile] at h
  | cons x xs ih =>
    intro h
    by_cases hp : p x
    · rw [List.dropWhile_cons_of_pos hp] at h; exact ih h
    · rw [List.dropWhile_cons_of_neg hp] at h
      injection h with h1 _
      subst h1
      simpa using hp

theorem exists_append_dropWhile (p : Char → Bool) (l : List Char) :
    ∃ t, l = t ++ l.dropWhile p := by
  induction l with
  | nil => exact ⟨[], rfl⟩
  | cons x xs ih =>
    by_cases hp : p x
    · obtain ⟨t, ht⟩ := ih
      refine ⟨x :: t, ?_⟩
      rw [List.dropWhile_cons_of_pos hp, List.cons_append, ← ht]
    · exact ⟨[], by rw [List.dropWhile_cons_of_neg hp]; rfl⟩

theorem dropWhile_trimChars (l : List Char) :
    (trimChars l).dropWhile Char.isWhitespace = trimChars l := by
  unfold trimChars List.rdropWhile
  obtain ⟨t, ht⟩ :=
    exists_append_dropWhile Char.isWhitespace (l.dropWhile Char.isWhitespace).reverse
  rcases hB : ((l.dropWhile Char.isWhitespace).reverse.dropWhile Char.isWhitespace).reverse
    with _ | ⟨c, cs⟩
  · rfl
  · have hA : l.dropWhile Char.isWhitespace = c :: (cs ++ t.reverse) := by
      have h2 := congrArg List.reverse ht
      rw [List.reverse_reverse, List.reverse_append, hB] at h2
      simpa using h2
    have hc : Char.isWhitespace c = false := dropWhile_head_false hA
    exact List.dropWhile_cons_of_neg (by simp [hc])

theorem trimChars_idem (l : List Char) :
    trimChars (trimChars l) = trimChars l := by
  conv_lhs => rw [trimChars, dropWhile_trimChars]
  rw [trimChars, List.rdropWhile_idempotent]

theorem jsTrim_idem (s : String) : jsTrim (jsTrim s) = jsTrim s :=
  congrArg String.mk (trimChars_idem s.data)

/-- A string contains another as a substring. -/
def containsSubstring (needle hay : String) : Prop :=
  ∃ a b, hay = a ++ needle ++ b

/-- Every stored stop is non-empty and equal to its own trimmed form. -/
def StopsInv (l : List String) : Prop :=
  ∀ s ∈ l, s ≠ "" ∧ jsTrim s = s

instance instDecStopsInv (l : List String) : Decidable (StopsInv l) :=
  inferInstanceAs (Decidable (∀ s ∈ l, s ≠ "" ∧ jsTrim s = s))

/-! ### Sample data used by the witnesses -/

/-- A sample form state with one stop and a pending stop input. -/
def sampleForm : FormState :=
  { tripName := "Summer Road Trip", destination := "Los Angeles, CA",
    stops := ["Reno"], newStop := "Lake Tahoe", isLoading := false,
    error := "", suggestions := [], currentLocation := some { lat := 37, lng := -122 } }

/-- The spec scenario form state: resolved origin, no stops. -/
def weekendForm : FormState :=
  { tripName := "Weekend Trip", destination := "Boston, MA",
    stops := [], newStop := "", isLoading := false,
    error := "", suggestions := [],
    currentLocation := some { lat := (40.7 : Rat), lng := (-74.0 : Rat) } }

/-- A form state failing validation: everything empty. -/
def blankForm : FormState :=
  { tripName := "", destination := "", stops := [], newStop := "",
    isLoading := false, error := "", suggestions := [], currentLocation := none }

/-- The part_000 variant of the spec scenario form state. -/
def weekendFormA : FormStateA :=
  { tripName := "Weekend Trip", destination := "Boston, MA",
    stops := [], newStop := "", isLoading := false,
    error := "", suggestions := [],
    currentLocation := some { lat := (40.7 : Rat), lng := (-74.0 : Rat) },
    shareableLink := "", showShareView := false }

/-- The part_000 variant of the blank form state. -/
def blankFormA : FormStateA :=
  { tripName := "", destination := "", stops := [], newStop := "",
    isLoading := false, error := "", suggestions := [], currentLocation := none,
    shareableLink := "", showShareView := false }

/-- A sample authenticated user. -/
def sampleUser : User :=
  { uid := "alice123", displayName := some "Alice", email := none, photoURL := none }

/-- A sample deterministic stand-in for the mock coordinate draw. -/
def sampleMock : String → Coord := fun _ => { lat := 37, lng := -122 }

/-- A sample successful createTrip outcome. -/
def sampleCreateTrip : TripData → Except String String := fun _ => Except.ok "trip1"

/-- A sample successful fetch outcome carrying a share link. -/
def sampleFetch : TripDataA → FetchOutcome :=
  fun _ => FetchOutcome.response true (Except.ok "https://mapsync.app/t/1")

/-! ### Claim theorems -/

/-- C4: adding a stop whose text trims to nothing leaves the stops list
unchanged; adding non-whitespace text appends exactly one entry (the
trimmed text, hence the text itself when it carries no surrounding
whitespace) at the end, preserving all prior entries and their order;
removing an in-range index i yields the list with exactly that position
dropped, order of the rest preserved. -/
theorem stops_add_remove_spec (st : FormState) :
    (jsTrim st.newStop = "" → (handleAddStop st).stops = st.stops) ∧
    (jsTrim st.newStop ≠ "" →
      (handleAddStop st).stops = st.stops ++ [jsTrim st.newStop]) ∧
    (jsTrim st.newStop = st.newStop → jsTrim st.newStop ≠ "" →
      (handleAddStop st).stops = st.stops ++ [st.newStop]) ∧
    (∀ i : Nat, i < st.stops.length →
      (handleRemoveStop st (i : Int)).stops = st.stops.eraseIdx i) := by
  refine ⟨?_, ?_, ?_, ?_⟩
  · intro h; simp [handleAddStop, h]
  · intro h; simp [handleAddStop, h]
  · intro he h; rw [← he]; simp [handleAddStop, h]
  · intro i hi
    show jsFilterWithIndex (fun k _ => decide ((k : Int) ≠ (i : Int))) st.stops 0
        = st.stops.eraseIdx i
    exact jsFilterWithIndex_erase (i : Int) st.stops i 0 (by push_cast; ring) hi

/-- C4 witness: concrete run on sampleForm, whose pending stop text is
already trimmed, and removal of index 0. -/
theorem stops_add_remove_spec_witness :
    jsTrim sampleForm.newStop = sampleForm.newStop ∧
    jsTrim sampleForm.newStop ≠ "" ∧
    (handleAddStop sampleForm).stops = sampleForm.stops ++ [sampleForm.newStop] ∧
    0 < sampleForm.stops.length ∧
    (handleRemoveStop sampleForm ((0 : Nat) : Int)).stops = sampleForm.stops.eraseIdx 0 :=
  ⟨by decide, by decide,
   (stops_add_remove_spec sampleForm).2.2.1 (by decide) (by decide),
   by decide,
   (stops_add_remove_spec sampleForm).2.2.2 0 (by decide)⟩

/-- C9: removing a stop at an out-of-range index (negative, or at least
the list length) leaves the stops list unchanged. -/
theorem remove_stop_out_of_range (st : FormState) (i : Int)
    (h : i < 0 ∨ (st.stops.length : Int) ≤ i) :
    (handleRemoveStop st i).stops = st.stops := by
  show jsFilterWithIndex (fun k _ => decide ((k : Int) ≠ i)) st.stops 0 = st.stops
  rcases h with h | h
  · exact jsFilterWithIndex_keep i st.stops 0 (fun k _ _ => by omega)
  · exact jsFilterWithIndex_keep i st.stops 0 (fun k _ hk => by
      simp only [Nat.zero_add] at hk; omega)

/-- C9 witness: removing index -1 from the sample stops list is a no-op. -/
theorem remove_stop_out_of_range_witness :
    ((-1 : Int) < 0 ∨ ((sampleForm.stops.length : Nat) : Int) ≤ -1) ∧
    (handleRemoveStop sampleForm (-1)).stops = sampleForm.stops :=
  ⟨Or.inl (by decide), remove_stop_out_of_range sampleForm (-1) (Or.inl (by decide))⟩

/-- C8: if every stored stop is non-empty and equal to its own trimmed
form, the invariant is preserved by adding a stop (which appends the
trimmed, non-empty text) and by removing a stop at any index. -/
theorem stops_trimmed_invariant (st : FormState) (h : StopsInv st.stops) :
    StopsInv (handleAddStop st).stops ∧
    (∀ i : Int, StopsInv (handleRemoveStop st i).stops) := by
  constructor
  · by_cases hts : jsTrim st.newStop = ""
    · rw [show (handleAddStop st).stops = st.stops from by simp [handleAddStop, hts]]
      exact h
    · intro s hs
      rw [show (handleAddStop st).stops = st.stops ++ [jsTrim st.newStop] from by
        simp [handleAddStop, hts]] at hs
      rcases List.mem_append.mp hs with h1 | h1
      · exact h s h1
      · have h2 : s = jsTrim st.newStop := List.mem_singleton.mp h1
        subst h2
        exact ⟨hts, jsTrim_idem st.newStop⟩
  · intro i s hs
    exact h s (mem_jsFilterWithIndex _ s st.stops 0 hs)

/-- C8 witness: concrete invariant run on sampleForm, whose pending stop
text carries surrounding whitespace in a second state. -/
theorem stops_trimmed_invariant_witness :
    StopsInv sampleForm.stops ∧
    StopsInv (handleAddStop sampleForm).stops ∧
    StopsInv (handleRemoveStop sampleForm 0).stops :=
  ⟨by decide,
   (stops_trimmed_invariant sampleForm (by decide)).1,
   (stops_trimmed_invariant sampleForm (by decide)).2 0⟩

/-- C5: the suggestion lookup returns the empty list whenever the input
trims to nothing (in particular on the empty string), and on any other
input returns exactly three candidates, each containing the input as a
substring. -/
theorem place_suggestions_spec (input : String) :
    (jsTrim input = "" → getPlaceSuggestions input = []) ∧
    (jsTrim input ≠ "" →
      (getPlaceSuggestions input).length = 3 ∧
      ∀ s ∈ getPlaceSuggestions input, containsSubstring input s.description) := by
  constructor
  · intro h; simp [getPlaceSuggestions, h]
  · intro h
    refine ⟨by simp [getPlaceSuggestions, h], ?_⟩
    intro s hs
    simp only [getPlaceSuggestions, if_neg h, List.mem_cons, List.not_mem_nil,
      or_false] at hs
    rcases hs with rfl | rfl | rfl
    · exact ⟨"", ", New York, USA", rfl⟩
    · exact ⟨"", ", California, USA", rfl⟩
    · exact ⟨"", ", Texas, USA", rfl⟩

/-- C5 witness: concrete run on the input Austin. -/
theorem place_suggestions_spec_witness :
    jsTrim "Austin" ≠ "" ∧
    ((getPlaceSuggestions "Austin").length = 3 ∧
      ∀ s ∈ getPlaceSuggestions "Austin", containsSubstring "Austin" s.description) :=
  ⟨by decide, (place_suggestions_spec "Austin").2 (by decide)⟩

/-- C1: in both submit variants, an empty name, empty destination, or
unresolved origin coordinate means no creation request is issued, the
loading flag is untouched, and a non-empty validation error message is
set; conversely a request is only ever issued when all three are
present. -/
theorem submit_validation_guard (st : FormState) (stA : FormStateA)
    (user : Option User) (mock : String → Coord)
    (createTrip : TripData → Except String String)
    (fetch : TripDataA → FetchOutcome) :
    ((st.tripName = "" ∨ st.destination = "" ∨ st.currentLocation = none) →
      (handleSubmit st user mock createTrip).requests = [] ∧
      (handleSubmit st user mock createTrip).state.isLoading = st.isLoading ∧
      (handleSubmit st user mock createTrip).state.error = validationError ∧
      validationError ≠ "") ∧
    ((handleSubmit st user mock createTrip).requests ≠ [] →
      st.tripName ≠ "" ∧ st.destination ≠ "" ∧ st.currentLocation ≠ none) ∧
    ((stA.tripName = "" ∨ stA.destination = "" ∨ stA.currentLocation = none) →
      (handleSubmitA stA user fetch).requests = [] ∧
      (handleSubmitA stA user fetch).state.isLoading = stA.isLoading ∧
      (handleSubmitA stA user fetch).state.error = validationError ∧
      validationError ≠ "") ∧
    ((handleSubmitA stA user fetch).requests ≠ [] →
      stA.tripName ≠ "" ∧ stA.destination ≠ "" ∧ stA.currentLocation ≠ none) := by
  refine ⟨?_, ?_, ?_, ?_⟩
  · intro h
    rcases hloc : st.currentLocation with _ | loc
    · refine ⟨?_, ?_, ?_, by decide⟩ <;> simp [handleSubmit, hloc]
    · have hcond : st.tripName = "" ∨ st.destination = "" := by
        rcases h with h | h | h
        · exact Or.inl h
        · exact Or.inr h
        · rw [hloc] at h; exact absurd h (by simp)
      refine ⟨?_, ?_, ?_, by decide⟩ <;> simp [handleSubmit, hloc, hcond]
  · intro hreq
    rcases hloc : st.currentLocation with _ | loc
    · exact absurd (by simp [handleSubmit, hloc]) hreq
    · by_cases hcond : st.tripName = "" ∨ st.destination = ""
      · exact absurd (by simp [handleSubmit, hloc, hcond]) hreq
      · push_neg at hcond
        exact ⟨hcond.1, hcond.2, by simp [hloc]⟩
  · intro h
    rcases hloc : stA.currentLocation with _ | loc
    · refine ⟨?_, ?_, ?_, by decide⟩ <;> simp [handleSubmitA, hloc]
    · have hcond : stA.tripName = "" ∨ stA.destination = "" := by
        rcases h with h | h | h
        · exact Or.inl h
        · exact Or.inr h
        · rw [hloc] at h; exact absurd h (by simp)
      refine ⟨?_, ?_, ?_, by decide⟩ <;> simp [handleSubmitA, hloc, hcond]
  · intro hreq
    rcases hloc : stA.currentLocation with _ | loc
    · exact absurd (by simp [handleSubmitA, hloc]) hreq
    · by_cases hcond : stA.tripName = "" ∨ stA.destination = ""
      · exact absurd (by simp [handleSubmitA, hloc, hcond]) hreq
      · push_neg at hcond
        exact ⟨hcond.1, hcond.2, by simp [hloc]⟩

/-- C1 witness: submitting the blank form issues no request in either
variant and sets the validation error. -/
theorem submit_validation_guard_witness :
    (blankForm.tripName = "" ∨ blankForm.destination = "" ∨
      blankForm.currentLocation = none) ∧
    ((handleSubmit blankForm none sampleMock sampleCreateTrip).requests = [] ∧
      (handleSubmit blankForm none sampleMock sampleCreateTrip).state.isLoading
        = blankForm.isLoading ∧
      (handleSubmit blankForm none sampleMock sampleCreateTrip).state.error
        = validationError ∧
      validationError ≠ "") :=
  ⟨Or.inl (by decide),
   (submit_validation_guard blankForm blankFormA none sampleMock sampleCreateTrip
      sampleFetch).1 (Or.inl (by decide))⟩

/-- C2: for a valid submission in either variant, the submit operation
ends with the loading flag false (submit control re-enabled); on a
successful creation the error message is empty, and on any failure
(thrown createTrip exception; network error, non-ok status or parse
throw of the fetch) the error message is the fixed non-empty generic
string.  The single external call is abstracted by its outcome. -/
theorem submit_terminates (st : FormState) (stA : FormStateA) (user : Option User)
    (mock : String → Coord) (outcomeB : Except String String) (outcomeA : FetchOutcome)
    (hn : st.tripName ≠ "") (hd : st.destination ≠ "") (hl : st.currentLocation ≠ none)
    (hnA : stA.tripName ≠ "") (hdA : stA.destination ≠ "")
    (hlA : stA.currentLocation ≠ none) :
    (handleSubmit st user mock (fun _ => outcomeB)).state.isLoading = false ∧
    (handleSubmitA stA user (fun _ => outcomeA)).state.isLoading = false ∧
    (∀ tripId, outcomeB = Except.ok tripId →
      (handleSubmit st user mock (fun _ => outcomeB)).state.error = "") ∧
    (∀ e, outcomeB = Except.error e →
      (handleSubmit st user mock (fun _ => outcomeB)).state.error = genericFailure) ∧
    (∀ link, outcomeA = FetchOutcome.response true (Except.ok link) →
      (handleSubmitA stA user (fun _ => outcomeA)).state.error = "") ∧
    (outcomeA = FetchOutcome.networkError →
      (handleSubmitA stA user (fun _ => outcomeA)).state.error = genericFailure) ∧
    (∀ json, outcomeA = FetchOutcome.response false json →
      (handleSubmitA stA user (fun _ => outcomeA)).state.error = genericFailure) ∧
    (outcomeA = FetchOutcome.response true (Except.error ()) →
      (handleSubmitA stA user (fun _ => outcomeA)).state.error = genericFailure) ∧
    genericFailure ≠ "" := by
  rcases hloc : st.currentLocation with _ | loc
  · exact absurd hloc hl
  rcases hlocA : stA.currentLocation with _ | locA
  · exact absurd hlocA hlA
  have hcond : ¬(st.tripName = "" ∨ st.destination = "") := by
    rintro (h | h) <;> [exact hn h; exact hd h]
  have hcondA : ¬(stA.tripName = "" ∨ stA.destination = "") := by
    rintro (h | h) <;> [exact hnA h; exact hdA h]
  refine ⟨?_, ?_, ?_, ?_, ?_, ?_, ?_, ?_, by decide⟩
  · rcases outcomeB with tripId | e <;> simp [handleSubmit, hloc, hcond]
  · rcases outcomeA with _ | ⟨ok, json⟩
    · simp [handleSubmitA, hlocA, hcondA]
    · rcases ok with _ | _ <;> rcases json with link | e <;>
        simp [handleSubmitA, hlocA, hcondA]
  · intro tripId hok
    subst hok
    simp [handleSubmit, hloc, hcond]
  · intro e herr
    subst herr
    simp [handleSubmit, hloc, hcond]
  · intro link hok
    subst hok
    simp [handleSubmitA, hlocA, hcondA]
  · intro hnet
    subst hnet
    simp [handleSubmitA, hlocA, hcondA]
  · intro json hbad
    subst hbad
    simp [handleSubmitA, hlocA, hcondA]
  · intro hparse
    subst hparse
    simp [handleSubmitA, hlocA, hcondA]

/-- C2 witness: a valid submission with a successful outcome in each
variant ends not loading and with an empty error message. -/
theorem submit_terminates_witness :
    weekendForm.tripName ≠ "" ∧ weekendForm.destination ≠ "" ∧
    weekendForm.currentLocation ≠ none ∧
    weekendFormA.tripName ≠ "" ∧ weekendFormA.destination ≠ "" ∧
    weekendFormA.currentLocation ≠ none ∧
    ((handleSubmit weekendForm (some sampleUser) sampleMock
        (fun _ => Except.ok "trip1")).state.isLoading = false ∧
      (handleSubmitA weekendFormA (some sampleUser)
        (fun _ => FetchOutcome.response true (Except.ok "L"))).state.isLoading = false ∧
      (∀ tripId, (Except.ok "trip1" : Except String String) = Except.ok tripId →
        (handleSubmit weekendForm (some sampleUser) sampleMock
          (fun _ => Except.ok "trip1")).state.error = "") ∧
      (∀ e, (Except.ok "trip1" : Except String String) = Except.error e →
        (handleSubmit weekendForm (some sampleUser) sampleMock
          (fun _ => Except.ok "trip1")).state.error = genericFailure) ∧
      (∀ link, FetchOutcome.response true (Except.ok "L")
          = FetchOutcome.response true (Except.ok link) →
        (handleSubmitA weekendFormA (some sampleUser)
          (fun _ => FetchOutcome.response true (Except.ok "L"))).state.error = "") ∧
      (FetchOutcome.response true (Except.ok "L") = FetchOutcome.networkError →
        (handleSubmitA weekendFormA (some sampleUser)
          (fun _ => FetchOutcome.response true (Except.ok "L"))).state.error
            = genericFailure) ∧
      (∀ json, FetchOutcome.response true (Except.ok "L")
          = FetchOutcome.response false json →
        (handleSubmitA weekendFormA (some sampleUser)
          (fun _ => FetchOutcome.response true (Except.ok "L"))).state.error
            = genericFailure) ∧
      (FetchOutcome.response true (Except.ok "L")
          = FetchOutcome.response true (Except.error ()) →
        (handleSubmitA weekendFormA (some sampleUser)
          (fun _ => FetchOutcome.response true (Except.ok "L"))).state.error
            = genericFailure) ∧
      genericFailure ≠ "") :=
  ⟨by decide, by decide, by decide, by decide, by decide, by decide,
   submit_terminates weekendForm weekendFormA (some sampleUser) sampleMock
     (Except.ok "trip1") (FetchOutcome.response true (Except.ok "L"))
     (by decide) (by decide) (by decide) (by decide) (by decide) (by decide)⟩

/-- In the valid case, TripModal.tsx handleSubmit issues exactly the one
tripData request, whatever the createTrip outcome. -/
theorem handleSubmit_valid_requests (st : FormState) (user : Option User)
    (mock : String → Coord) (createTrip : TripData → Except String String)
    (loc : Coord) (hloc : st.currentLocation = some loc)
    (hcond : ¬(st.tripName = "" ∨ st.destination = "")) :
    (handleSubmit st user mock createTrip).requests =
      [{ name := st.tripName,
         origin := { name := "Current Location", location := loc },
         destination := { name := st.destination, location := mock st.destination },
         stops := jsMapWithIndex
           (fun index stop =>
             { id := "stop" ++ toString index, name := stop,
               location := mock stop : StopData }) st.stops 0,
         participants := [sessionUid user anonFallback],
         createdBy := sessionUid user anonFallback }] := by
  simp only [handleSubmit, hloc]
  rw [if_neg hcond]
  split <;> rfl

/-- In the valid case, the part_000 handleSubmit issues exactly the one
tripData request, whatever the fetch outcome. -/
theorem handleSubmitA_valid_requests (stA : FormStateA) (user : Option User)
    (fetch : TripDataA → FetchOutcome)
    (locA : Coord) (hloc : stA.currentLocation = some locA)
    (hcond : ¬(stA.tripName = "" ∨ stA.destination = "")) :
    (handleSubmitA stA user fetch).requests =
      [{ name := stA.tripName,
         origin := { name := "Current Location", location := locA },
         destination := { name := stA.destination, location := { lat := 0, lng := 0 } },
         stops := stA.stops.map
           (fun stop => ({ name := stop, location := { lat := 0, lng := 0 } } : Place)),
         createdBy := sessionUid user "" }] := by
  simp only [handleSubmitA, hloc]
  rw [if_neg hcond]
  split
  · rfl
  · split
    · split <;> rfl
    · rfl

/-- C3: for a valid form state with an empty stops list, either submit
variant issues exactly one creation request, whose stops payload is the
empty list and whose createdBy is the session uid when a user (with a
non-empty provider uid) is authenticated, and otherwise the defined
anonymous fallback of the variant. -/
theorem submit_single_request_payload (st : FormState) (stA : FormStateA)
    (user : Option User) (mock : String → Coord)
    (createTrip : TripData → Except String String) (fetch : TripDataA → FetchOutcome)
    (hn : st.tripName ≠ "") (hd : st.destination ≠ "") (hl : st.currentLocation ≠ none)
    (hs : st.stops = [])
    (hnA : stA.tripName ≠ "") (hdA : stA.destination ≠ "")
    (hlA : stA.currentLocation ≠ none) (hsA : stA.stops = [])
    (huid : ∀ u, user = some u → u.uid ≠ "") :
    (handleSubmit st user mock createTrip).requests.length = 1 ∧
    (handleSubmit st user mock createTrip).requests.map TripData.stops = [[]] ∧
    (user = none →
      (handleSubmit st user mock createTrip).requests.map TripData.createdBy
        = [anonFallback]) ∧
    (∀ u, user = some u →
      (handleSubmit st user mock createTrip).requests.map TripData.createdBy
        = [u.uid]) ∧
    (handleSubmitA stA user fetch).requests.length = 1 ∧
    (handleSubmitA stA user fetch).requests.map TripDataA.stops = [[]] ∧
    (user = none →
      (handleSubmitA stA user fetch).requests.map TripDataA.createdBy = [""]) ∧
    (∀ u, user = some u →
      (handleSubmitA stA user fetch).requests.map TripDataA.createdBy = [u.uid]) := by
  rcases hloc : st.currentLocation with _ | loc
  · exact absurd hloc hl
  rcases hlocA : stA.currentLocation with _ | locA
  · exact absurd hlocA hlA
  have hcond : ¬(st.tripName = "" ∨ st.destination = "") := by
    rintro (h | h) <;> [exact hn h; exact hd h]
  have hcondA : ¬(stA.tripName = "" ∨ stA.destination = "") := by
    rintro (h | h) <;> [exact hnA h; exact hdA h]
  have hB := handleSubmit_valid_requests st user mock createTrip loc hloc hcond
  have hA := handleSubmitA_valid_requests stA user fetch locA hlocA hcondA
  refine ⟨?_, ?_, ?_, ?_, ?_, ?_, ?_, ?_⟩
  · rw [hB]; rfl
  · rw [hB]; simp [hs, jsMapWithIndex]
  · intro hu; subst hu; rw [hB]; simp [sessionUid]
  · intro u hu; subst hu; rw [hB]; simp [sessionUid, jsStringOr, huid u rfl]
  · rw [hA]; rfl
  · rw [hA]; simp [hsA]
  · intro hu; subst hu; rw [hA]; simp [sessionUid]
  · intro u hu; subst hu; rw [hA]; simp [sessionUid, jsStringOr, huid u rfl]

/-- C3 witness: the spec scenario (Weekend Trip to Boston with resolved
origin and no stops) with an authenticated user in both variants. -/
theorem submit_single_request_payload_witness :
    weekendForm.tripName ≠ "" ∧ weekendForm.destination ≠ "" ∧
    weekendForm.currentLocation ≠ none ∧ weekendForm.stops = [] ∧
    weekendFormA.tripName ≠ "" ∧ weekendFormA.destination ≠ "" ∧
    weekendFormA.currentLocation ≠ none ∧ weekendFormA.stops = [] ∧
    ((handleSubmit weekendForm (some sampleUser) sampleMock
        sampleCreateTrip).requests.length = 1 ∧
      (handleSubmit weekendForm (some sampleUser) sampleMock
        sampleCreateTrip).requests.map TripData.stops = [[]] ∧
      (some sampleUser = none →
        (handleSubmit weekendForm (some sampleUser) sampleMock
          sampleCreateTrip).requests.map TripData.createdBy = [anonFallback]) ∧
      (∀ u, some sampleUser = some u →
        (handleSubmit weekendForm (some sampleUser) sampleMock
          sampleCreateTrip).requests.map TripData.createdBy = [u.uid]) ∧
      (handleSubmitA weekendFormA (some sampleUser) sampleFetch).requests.length = 1 ∧
      (handleSubmitA weekendFormA (some sampleUser) sampleFetch).requests.map
        TripDataA.stops = [[]] ∧
      (some sampleUser = none →
        (handleSubmitA weekendFormA (some sampleUser) sampleFetch).requests.map
          TripDataA.createdBy = [""]) ∧
      (∀ u, some sampleUser = some u →
        (handleSubmitA weekendFormA (some sampleUser) sampleFetch).requests.map
          TripDataA.createdBy = [u.uid])) :=
  ⟨by decide, by decide, by decide, by decide, by decide, by decide, by decide,
   by decide,
   submit_single_request_payload weekendForm weekendFormA (some sampleUser)
     sampleMock sampleCreateTrip sampleFetch
     (by decide) (by decide) (by decide) (by decide)
     (by decide) (by decide) (by decide) (by decide)
     (fun u hu => by injection hu with h; subst h; decide)⟩

/-- C7: in the direct-HTTP variant, a valid submission issues one request
whose destination coordinate and every stop coordinate are the zero
placeholder; a response with non-ok status takes the generic failure path
(error set, share view not entered); a success response makes the parsed
shareLink the shareable link and shows the share view. -/
theorem submitA_zero_coords_share (stA : FormStateA) (user : Option User)
    (outcomeA : FetchOutcome)
    (hn : stA.tripName ≠ "") (hd : stA.destination ≠ "")
    (hl : stA.currentLocation ≠ none) :
    (handleSubmitA stA user (fun _ => outcomeA)).requests.length = 1 ∧
    (handleSubmitA stA user (fun _ => outcomeA)).requests.map
      (fun t => t.destination.location) = [{ lat := 0, lng := 0 }] ∧
    (handleSubmitA stA user (fun _ => outcomeA)).requests.map
      (fun t => t.stops.map Place.location)
      = [List.replicate stA.stops.length { lat := 0, lng := 0 }] ∧
    (∀ json, outcomeA = FetchOutcome.response false json →
      (handleSubmitA stA user (fun _ => outcomeA)).state.error = genericFailure ∧
      (handleSubmitA stA user (fun _ => outcomeA)).state.showShareView
        = stA.showShareView) ∧
    (∀ link, outcomeA = FetchOutcome.response true (Except.ok link) →
      (handleSubmitA stA user (fun _ => outcomeA)).state.shareableLink = link ∧
      (handleSubmitA stA user (fun _ => outcomeA)).state.showShareView = true) := by
  rcases hloc : stA.currentLocation with _ | locA
  · exact absurd hloc hl
  have hcond : ¬(stA.tripName = "" ∨ stA.destination = "") := by
    rintro (h | h) <;> [exact hn h; exact hd h]
  have hA := handleSubmitA_valid_requests stA user (fun _ => outcomeA) locA hloc hcond
  refine ⟨?_, ?_, ?_, ?_, ?_⟩
  · rw [hA]; rfl
  · rw [hA]; rfl
  · rw [hA]
    have hfun : (Place.location ∘ fun stop =>
        ({ name := stop, location := { lat := 0, lng := 0 } } : Place))
        = Function.const String ({ lat := 0, lng := 0 } : Coord) := rfl
    simp only [List.map_cons, List.map_nil, List.map_map, hfun, List.map_const]
  · intro json hbad
    subst hbad
    constructor <;> simp [handleSubmitA, hloc, hcond]
  · intro link hok
    subst hok
    constructor <;> simp [handleSubmitA, hloc, hcond]

/-- C7 witness: a valid variant-A submission whose response is ok with a
concrete share link. -/
theorem submitA_zero_coords_share_witness :
    weekendFormA.tripName ≠ "" ∧ weekendFormA.destination ≠ "" ∧
    weekendFormA.currentLocation ≠ none ∧
    ((handleSubmitA weekendFormA (some sampleUser)
        (fun _ => FetchOutcome.response true
          (Except.ok "https://mapsync.app/t/1"))).requests.length = 1 ∧
      (handleSubmitA weekendFormA (some sampleUser)
        (fun _ => FetchOutcome.response true
          (Except.ok "https://mapsync.app/t/1"))).requests.map
        (fun t => t.destination.location) = [{ lat := 0, lng := 0 }] ∧
      (handleSubmitA weekendFormA (some sampleUser)
        (fun _ => FetchOutcome.response true
          (Except.ok "https://mapsync.app/t/1"))).requests.map
        (fun t => t.stops.map Place.location)
        = [List.replicate weekendFormA.stops.length { lat := 0, lng := 0 }] ∧
      (∀ json, FetchOutcome.response true (Except.ok "https://mapsync.app/t/1")
          = FetchOutcome.response false json →
        (handleSubmitA weekendFormA (some sampleUser)
          (fun _ => FetchOutcome.response true
            (Except.ok "https://mapsync.app/t/1"))).state.error = genericFailure ∧
        (handleSubmitA weekendFormA (some sampleUser)
          (fun _ => FetchOutcome.response true
            (Except.ok "https://mapsync.app/t/1"))).state.showShareView
          = weekendFormA.showShareView) ∧
      (∀ link, FetchOutcome.response true (Except.ok "https://mapsync.app/t/1")
          = FetchOutcome.response true (Except.ok link) →
        (handleSubmitA weekendFormA (some sampleUser)
          (fun _ => FetchOutcome.response true
            (Except.ok "https://mapsync.app/t/1"))).state.shareableLink = link ∧
        (handleSubmitA weekendFormA (some sampleUser)
          (fun _ => FetchOutcome.response true
            (Except.ok "https://mapsync.app/t/1"))).state.showShareView = true)) :=
  ⟨by decide, by decide, by decide,
   submitA_zero_coords_share weekendFormA (some sampleUser)
     (FetchOutcome.response true (Except.ok "https://mapsync.app/t/1"))
     (by decide) (by decide) (by decide)⟩

/-- The localStorage mirror of the session is absent after removeItem. -/
theorem getItem_removeItem (store : List (String × String)) (k : String) :
    getItem (removeItem store k) k = none := by
  induction store with
  | nil => rfl
  | cons kv t ih =>
    by_cases hk : kv.1 = k
    · simpa [removeItem, List.filter_cons, hk] using ih
    · simp only [removeItem] at ih ⊢
      rw [List.filter_cons, if_pos (by simp [hk])]
      simp only [getItem] at ih ⊢
      rw [List.find?_cons_of_neg _ (by simp [hk])]
      exact ih

/-- C6: whatever the prior session, a successful logout leaves the
current session null and removes the cached session mirror from local
storage. -/
theorem logout_clears_session (st : AuthState) :
    (logout st (Except.ok ())).1.currentUser = none ∧
    getItem (logout st (Except.ok ())).1.localStorage "user" = none :=
  ⟨rfl, getItem_removeItem st.localStorage "user"⟩

/-- C10: if the identity-provider call throws, login and logout leave
the auth state (session snapshot and localStorage mirror) unchanged and
re-throw the same error to the caller. -/
theorem auth_unchanged_on_throw (st : AuthState) (e : String) :
    login st (Except.error e) = (st, Except.error e) ∧
    logout st (Except.error e) = (st, Except.error e) :=
  ⟨rfl, rfl⟩

end MapSync
